import Mathlib

/-!
Verification of the chat-log → YouTube-playlist synchronization pipeline.

The development shallowly embeds the pipeline's core functions:
the identifier extractor (the two global-flag URL patterns and their
exec loops, with the JavaScript `lastIndex` cursor made explicit),
the WhatsApp line parser, the two deduplicators, the reconciler
(`findNewVideos`), the committer (`processVideoAddition` /
`addVideosSequentially`), the run statistics and exit-code decision,
and the blacklist loader.  Machine numbers are `Int`/`Nat`; JavaScript
exceptions are `Except` values; the mutable regex cursor is explicit
state passing; file and network I/O are parameters supplying the data
the code would read.
-/

/-! ## Character classes (JS regex semantics, no `u` flag: ASCII `\w`) -/

/-- JS `\w`: ASCII letters, digits and underscore. -/
def isWordChar (c : Char) : Bool :=
  c.isAlpha || c.isDigit || c = '_'

/-- The character set of the capture groups `([\w-]+)`: `\w` or hyphen. -/
def isWordDash (c : Char) : Bool :=
  isWordChar c || c = '-'

/-- JS `\s` (WhiteSpace ∪ LineTerminator), the set used by `\s`, `trim`
and `replace(/\s+/g, ...)`. -/
def isJsSpace (c : Char) : Bool :=
  c = ' ' || c = '\t' || c = '\n' || c = '\r' ||
  c.toNat = 11 || c.toNat = 12 || c.toNat = 0xa0 || c.toNat = 0x1680 ||
  (0x2000 ≤ c.toNat && c.toNat ≤ 0x200a) ||
  c.toNat = 0x2028 || c.toNat = 0x2029 ||
  c.toNat = 0x202f || c.toNat = 0x205f || c.toNat = 0x3000 || c.toNat = 0xfeff

/-- JS LineTerminator: what `.` does not match (no `s` flag). -/
def isLineTerm (c : Char) : Bool :=
  c = '\n' || c = '\r' || c.toNat = 0x2028 || c.toNat = 0x2029

/-- JS `String.prototype.trim`. -/
def jsTrim (s : List Char) : List Char :=
  ((s.dropWhile isJsSpace).reverse.dropWhile isJsSpace).reverse

/-- JS `String.prototype.includes` (substring test), pattern first. -/
def strIncludes (pat : List Char) : List Char → Bool
  | [] => pat.isEmpty
  | c :: cs => pat.isPrefixOf (c :: cs) || strIncludes pat cs

/-! ## The two URL patterns of `youTubeRegexes`

`/youtu\.be\/([\w-]+)/g` and `/youtube\.com\/watch\?.*v=([\w-]+)/g`.
`exec` on a global regex searches from the stored `lastIndex`,
returns the capture and sets `lastIndex` to the end of the match,
or returns null and resets `lastIndex` to 0. -/

/-- The literal part of the first pattern, `youtu\.be\/`. -/
def ylit : List Char := ['y', 'o', 'u', 't', 'u', '.', 'b', 'e', '/']

/-- The literal part of the second pattern, `youtube\.com\/watch\?`. -/
def wlit : List Char :=
  ['y', 'o', 'u', 't', 'u', 'b', 'e', '.', 'c', 'o', 'm', '/', 'w', 'a', 't', 'c', 'h', '?']

/-- Attempt the first pattern at successive start positions of `suffix`
(absolute position `pos`); on success return the capture (the maximal
nonempty `[\w-]` run after `youtu.be/`) and the absolute end of the match.
`fuel` bounds the scan; `suffix.length` steps always suffice. -/
def youtuBeExec : Nat → Nat → List Char → Option (List Char × Nat)
  | 0, _, _ => none
  | _ + 1, _, [] => none
  | fuel + 1, pos, c :: cs =>
    if ylit.isPrefixOf (c :: cs) then
      let rest := (c :: cs).drop ylit.length
      let run := rest.takeWhile isWordDash
      if run.isEmpty then youtuBeExec fuel (pos + 1) cs
      else some (run, pos + ylit.length + run.length)
    else youtuBeExec fuel (pos + 1) cs

/-- Does `v=` followed by a `[\w-]` character stand at offset `q` of `tail`?
(The backtracking target of `.*v=([\w-]+)`.) -/
def vEqAt (tail : List Char) (q : Nat) : Bool :=
  (['v', '='].isPrefixOf (tail.drop q)) &&
  (match (tail.drop (q + 2)).head? with
   | some c => isWordDash c
   | none => false)

/-- Greedy `.*v=`: the largest `q ≤ limit` with `vEqAt`, searched from
`limit` downward exactly as the backtracking engine does. -/
def findVEq (tail : List Char) : Nat → Option Nat
  | 0 => if vEqAt tail 0 then some 0 else none
  | q + 1 => if vEqAt tail (q + 1) then some (q + 1) else findVEq tail q

/-- Attempt the second pattern at successive start positions: the literal
`youtube.com/watch?`, then `.*` (greedy, cannot cross a line terminator),
then `v=` and the captured maximal `[\w-]` run. -/
def watchExec : Nat → Nat → List Char → Option (List Char × Nat)
  | 0, _, _ => none
  | _ + 1, _, [] => none
  | fuel + 1, pos, c :: cs =>
    if wlit.isPrefixOf (c :: cs) then
      let tail := (c :: cs).drop wlit.length
      let limit := (tail.takeWhile (fun ch => !(isLineTerm ch))).length
      match findVEq tail limit with
      | some q =>
        let run := (tail.drop (q + 2)).takeWhile isWordDash
        some (run, pos + wlit.length + q + 2 + run.length)
      | none => watchExec fuel (pos + 1) cs
    else watchExec fuel (pos + 1) cs

/-- `regex.exec` for the first pattern: search `s` from `lastIndex` `li`. -/
def execYoutuBe (s : List Char) (li : Nat) : Option (List Char × Nat) :=
  youtuBeExec ((s.drop li).length + 1) li (s.drop li)

/-- `regex.exec` for the second pattern: search `s` from `lastIndex` `li`. -/
def execWatch (s : List Char) (li : Nat) : Option (List Char × Nat) :=
  watchExec ((s.drop li).length + 1) li (s.drop li)

/-- The `while ((match = regex.exec(body)) !== null)` loop: collect the
captures left to right and report the final `lastIndex` (0, because a
failing `exec` on a global regex resets the cursor). -/
def execLoop (exec : List Char → Nat → Option (List Char × Nat)) :
    Nat → List Char → Nat → List (List Char) × Nat
  | 0, _, li => ([], li)
  | fuel + 1, s, li =>
    match exec s li with
    | none => ([], 0)
    | some (cap, li') =>
      let p := execLoop exec fuel s li'
      (cap :: p.1, p.2)

/-- All captures of the first pattern, scanning from a reset cursor. -/
def youtuBeIds (s : List Char) : List (List Char) :=
  (execLoop execYoutuBe (s.length + 1) s 0).1

/-- All captures of the second pattern, scanning from a reset cursor. -/
def watchIds (s : List Char) : List (List Char) :=
  (execLoop execWatch (s.length + 1) s 0).1

/-! ## Identifier Extractor (`src/utils/youtube-extractor.ts`) -/

/-- `extractVideoIdsFromMessage`: for each pattern in order, reset
`lastIndex` and collect every capture. -/
def extractVideoIdsFromMessage (body : String) : List String :=
  (youtuBeIds body.data).map String.mk ++ (watchIds body.data).map String.mk

/-- `hasYouTubeLinks`: `regexes.some(r => { r.lastIndex = 0; return r.test(body) })`. -/
def hasYouTubeLinks (body : String) : Bool :=
  (execYoutuBe body.data 0).isSome || (execWatch body.data 0).isSome

/-- `extractVideoIdsFromMessage` with the two shared pattern objects'
`lastIndex` cursors passed explicitly: each is set to 0 before its scan
(the `regex.lastIndex = 0` line), and the loop leaves it at 0. -/
def extractVideoIdsFromMessageSt (body : String) (st : Nat × Nat) :
    List String × (Nat × Nat) :=
  let p1 := execLoop execYoutuBe (body.data.length + 1) body.data 0
  let p2 := execLoop execWatch (body.data.length + 1) body.data 0
  (p1.1.map String.mk ++ p2.1.map String.mk, (p1.2, p2.2))

/-- `hasYouTubeLinks` with explicit cursors: `test` advances `lastIndex`
past the match on success (so the outgoing state is not 0), resets it to
0 on failure, and `some` short-circuits, leaving the second pattern's
cursor untouched when the first pattern matches. -/
def hasYouTubeLinksSt (body : String) (st : Nat × Nat) : Bool × (Nat × Nat) :=
  match execYoutuBe body.data 0 with
  | some (_, e1) => (true, (e1, st.2))
  | none =>
    match execWatch body.data 0 with
    | some (_, e2) => (true, (0, e2))
    | none => (false, (0, 0))

/-- `MessageData` of the extractor module. -/
structure MessageData where
  body : String
  datetime : Int
  userId : Option String
deriving DecidableEq, Repr

/-- `YouTubeLinkWithMetadata` (also the shape of the persisted
metadata JSON records). -/
structure YouTubeLinkWithMetadata where
  videoId : String
  datetime : Int
  userId : Option String
deriving DecidableEq, Repr

/-- `extractYouTubeLinksFromMessages`: flat-map over the messages; per
message, pattern order then match order, annotating each capture with the
message's datetime and sender. -/
def extractYouTubeLinksFromMessages : List MessageData → List YouTubeLinkWithMetadata
  | [] => []
  | m :: rest =>
    ((youtuBeIds m.body.data).map (fun vid => ⟨String.mk vid, m.datetime, m.userId⟩) ++
     (watchIds m.body.data).map (fun vid => ⟨String.mk vid, m.datetime, m.userId⟩)) ++
    extractYouTubeLinksFromMessages rest

/-! ## WhatsApp line parser (`src/whatsapp/parser.ts`) -/

/-- `WhatsAppMessage`. -/
structure WhatsAppMessage where
  datetime : Int
  userId : Option String
  message : String
  rawLine : String
deriving DecidableEq, Repr

/-- `WhatsAppParseOptions`; an absent field is the JS `undefined`. -/
structure WhatsAppParseOptions where
  timezone : Option String := none
  skipSystemMessages : Option Bool := none
deriving DecidableEq, Repr

/-- The literal system-notice phrases of `SYSTEM_MESSAGE_PATTERNS`
(each regex is a plain substring test). -/
def SYSTEM_MESSAGE_PATTERNS : List String :=
  ["Messages and calls are end-to-end encrypted",
   "You created group",
   "added",
   "left",
   "changed the group description",
   "changed the subject",
   "This message was deleted"]

/-- `isSystemMessage`: some pattern occurs in the message. -/
def isSystemMessage (message : String) : Bool :=
  SYSTEM_MESSAGE_PATTERNS.any (fun p => strIncludes p.data message.data)

/-- Exactly `n` leading decimal digits, returning them and the rest. -/
def takeDigits : Nat → List Char → Option (List Char × List Char)
  | 0, s => some ([], s)
  | _ + 1, [] => none
  | n + 1, c :: cs =>
    if c.isDigit then (takeDigits n cs).map (fun p => (c :: p.1, p.2))
    else none

/-- `\d{1,2}` followed by the literal `delim`, consuming both.  The two
digit-count alternatives are mutually exclusive because the delimiter is
not a digit, so the backtracking regex is this deterministic test. -/
def digits1or2Before (delim : Char) : List Char → Option (List Char × List Char)
  | a :: b :: c :: rest =>
    if a.isDigit && b.isDigit && c = delim then some ([a, b], rest)
    else if a.isDigit && b = delim then some ([a], c :: rest)
    else none
  | [a, b] => if a.isDigit && b = delim then some ([a], []) else none
  | _ => none

/-- `WHATSAPP_MESSAGE_REGEX`
`^(\d{1,2}\/\d{1,2}\/\d{4}),\s(\d{1,2}:\d{2})\s-\s([^:]+):\s(.*)$`
applied to a whole line: the four capture groups of a successful match
(`Option String` mirrors the `string | undefined` element type of the
JS match array). -/
def matchHeader (line : List Char) :
    Option (Option String × Option String × Option String × Option String) :=
  match digits1or2Before '/' line with
  | none => none
  | some (day, s1) =>
    match digits1or2Before '/' s1 with
    | none => none
    | some (mon, s2) =>
      match takeDigits 4 s2 with
      | none => none
      | some (yr, s3) =>
        match s3 with
        | ',' :: w1 :: s4 =>
          if isJsSpace w1 then
            match digits1or2Before ':' s4 with
            | none => none
            | some (hh, s5) =>
              match takeDigits 2 s5 with
              | none => none
              | some (mm, s6) =>
                match s6 with
                | w2 :: '-' :: w3 :: s7 =>
                  if isJsSpace w2 && isJsSpace w3 then
                    let author := s7.takeWhile (fun c => c ≠ ':')
                    if author.isEmpty then none
                    else
                      match s7.drop author.length with
                      | ':' :: w4 :: s9 =>
                        if isJsSpace w4 && !(s9.any isLineTerm) then
                          some (some (String.mk (day ++ '/' :: mon ++ '/' :: yr)),
                                some (String.mk (hh ++ ':' :: mm)),
                                some (String.mk author),
                                some (String.mk s9))
                        else none
                      | _ => none
                  else none
                | _ => none
          else none
        | _ => none

/-- JS `Number` on an all-digit string (the only shape the parser feeds it). -/
def digitsVal (l : List Char) : Int :=
  Int.ofNat (l.foldl (fun a c => a * 10 + (c.toNat - 48)) 0)

/-- Split a character list at every occurrence of `sep`
(JS `String.prototype.split` with a single-character separator). -/
def splitOnChar (sep : Char) : List Char → List (List Char)
  | [] => [[]]
  | c :: cs =>
    let r := splitOnChar sep cs
    if c = sep then [] :: r
    else
      match r with
      | [] => [[c]]
      | h :: t => (c :: h) :: t

/-- Days between 1970-01-01 and the civil date `y-m-d` (proleptic
Gregorian), linear in out-of-range `d` exactly like the JS `Date`
day-of-month overflow. -/
def daysFromCivil (y m d : Int) : Int :=
  let y2 := if m ≤ 2 then y - 1 else y
  let era := Int.fdiv y2 400
  let yoe := y2 - era * 400
  let mp := Int.emod (m + 9) 12
  let doy := Int.fdiv (153 * mp + 2) 5 + d - 1
  let doe := yoe * 365 + Int.fdiv yoe 4 - Int.fdiv yoe 100 + doy
  era * 146097 + doe - 719468

/-- `new Date(year, monthIndex, day, hours, minutes).getTime()` in a
local timezone `tzOffsetMin` minutes east of UTC: the constructor first
normalizes the month index with floor division, and the remaining
out-of-range fields spill over linearly. -/
def jsDateMs (tzOffsetMin : Int) (year monthIndex day hours minutes : Int) : Int :=
  let y := year + Int.fdiv monthIndex 12
  let m := Int.emod monthIndex 12 + 1
  daysFromCivil y m day * 86400000 + hours * 3600000 + minutes * 60000
    - tzOffsetMin * 60000

/-- `parseWhatsAppDateTime`: split `"D/M/YYYY"` and `"H:MM"`, map
`Number`, and build the local `Date` (day before month). -/
def parseWhatsAppDateTime (tzOffsetMin : Int) (dateStr timeStr : String) : Int :=
  let dparts := (splitOnChar '/' dateStr.data).map digitsVal
  let tparts := (splitOnChar ':' timeStr.data).map digitsVal
  let day := dparts.getD 0 0
  let month := dparts.getD 1 0
  let year := dparts.getD 2 0
  let hours := tparts.getD 0 0
  let minutes := tparts.getD 1 0
  jsDateMs tzOffsetMin year (month - 1) day hours minutes

/-- `normalizeUserId`: trim; a leading `+` marks a phone number whose
whitespace is stripped; otherwise the trimmed name, or null if empty. -/
def normalizeUserId (userId : String) : Option String :=
  let trimmedUserId := jsTrim userId.data
  if trimmedUserId.head? = some '+' then
    some (String.mk (trimmedUserId.filter (fun c => !isJsSpace c)))
  else if trimmedUserId.isEmpty then none
  else some (String.mk trimmedUserId)

/-- JS falsiness of a `string | undefined` group: `undefined` or `""`. -/
def jsFalsy : Option String → Bool
  | none => true
  | some s => s.data.isEmpty

/-- `parseWhatsAppLine`: `Except` carries the `Invalid message format`
throw; `.ok none` is the JS `null`.  `tzOffsetMin` is the ambient local
timezone used by the `Date` constructor. -/
def parseWhatsAppLine (tzOffsetMin : Int) (line : String) (lineNumber : Nat)
    (options : WhatsAppParseOptions) : Except String (Option WhatsAppMessage) :=
  let skipSystemMessages := options.skipSystemMessages.getD true
  if (jsTrim line.data).isEmpty then .ok none
  else
    match matchHeader line.data with
    | none => .ok none
    | some (dateStr?, timeStr?, userStr?, messageContent?) =>
      if jsFalsy dateStr? || jsFalsy timeStr? || jsFalsy userStr? ||
          messageContent?.isNone then
        .error ("Invalid message format at line " ++ toString lineNumber ++ ": " ++ line)
      else
        let messageContent := messageContent?.getD ""
        if skipSystemMessages && isSystemMessage messageContent then .ok none
        else
          .ok (some
            { datetime := parseWhatsAppDateTime tzOffsetMin (dateStr?.getD "") (timeStr?.getD "")
              userId := normalizeUserId (userStr?.getD "")
              message := String.mk (jsTrim messageContent.data)
              rawLine := line })

/-- `whatsAppMessageToMessageData` of `src/whatsapp/extractor.ts`. -/
def whatsAppMessageToMessageData (message : WhatsAppMessage) : MessageData :=
  { body := message.message, datetime := message.datetime, userId := message.userId }

/-! ## Reconciler (`findNewVideos`, three-argument form of
`src/update-whatsapp.ts` and the Signal updater) -/

/-- `findNewVideos`: keep the local identifiers present in neither the
remote playlist set nor the blacklist set (JS `Set` modelled by a list
with `has` as `contains`). -/
def findNewVideos (localVideoIds : List String) (existingVideoIds : List String)
    (blacklistedVideoIds : List String) : List String :=
  localVideoIds.filter
    (fun id => !existingVideoIds.contains id && !blacklistedVideoIds.contains id)

/-! ## Deduplicators -/

/-- The string `videoId:userId:datetime` (JS template literal; `null`
prints as `"null"`, numbers in decimal). -/
def dedupKey (entry : YouTubeLinkWithMetadata) : String :=
  entry.videoId ++ ":" ++ (match entry.userId with
    | some u => u
    | none => "null") ++ ":" ++ toString entry.datetime

/-- JS `Map.prototype.set`: replace in place when the key exists
(keeping the key's insertion position), else append. -/
def jsMapSet (m : List (String × YouTubeLinkWithMetadata)) (k : String)
    (v : YouTubeLinkWithMetadata) : List (String × YouTubeLinkWithMetadata) :=
  if m.any (fun p => p.1 = k) then
    m.map (fun p => if p.1 = k then (k, v) else p)
  else m ++ [(k, v)]

/-- JS `Map.prototype.get` on the association list. -/
def jsMapGet (m : List (String × YouTubeLinkWithMetadata)) (k : String) :
    Option YouTubeLinkWithMetadata :=
  (m.find? (fun p => p.1 = k)).map (fun p => p.2)

/-- One `reduce` step of `deduplicateEntries`:
`map.set(key, !existing ? entry : existing)`. -/
def dedupStep (m : List (String × YouTubeLinkWithMetadata))
    (entry : YouTubeLinkWithMetadata) : List (String × YouTubeLinkWithMetadata) :=
  let key := dedupKey entry
  jsMapSet m key (match jsMapGet m key with
    | none => entry
    | some existing => existing)

/-- `deduplicateEntries` of the anonymization pipeline:
`Array.from(data.reduce(..., new Map()).values())`. -/
def deduplicateEntries (data : List YouTubeLinkWithMetadata) :
    List YouTubeLinkWithMetadata :=
  (data.foldl dedupStep []).map (fun p => p.2)

/-- `deduplicateMetadata` of `src/update-whatsapp.ts`: a seen-set filter
over the same `videoId:userId:datetime` key, keeping first occurrences. -/
def deduplicateMetadata (metadata : List YouTubeLinkWithMetadata)
    (seen : List String := []) : List YouTubeLinkWithMetadata :=
  match metadata with
  | [] => []
  | entry :: rest =>
    if seen.contains (dedupKey entry) then deduplicateMetadata rest seen
    else entry :: deduplicateMetadata rest (dedupKey entry :: seen)

/-! ## Committer (`src/update-whatsapp.ts`) -/

/-- `AddResult.status`. -/
inductive AddStatus where
  | added
  | skipped
  | error
deriving DecidableEq, Repr

/-- `AddResult`. -/
structure AddResult where
  status : AddStatus
  videoId : String
  message : String
  title : Option String := none
deriving DecidableEq, Repr

/-- The caught JS error value: `error.code` and `error.message`
(either may be absent). -/
structure JsError where
  code : Option Int := none
  message : Option String := none
deriving DecidableEq, Repr

/-- The `videoInfo.snippet?.title` the remote lookup returns. -/
structure VideoInfo where
  title : Option String := none
deriving DecidableEq, Repr

/-- The remote playlist client: `getVideoInfo` (null when the video does
not exist) and `addVideoToPlaylist` (playlistId, videoId); a thrown
error is the `Except.error` value. -/
structure RemoteEnv where
  getVideoInfo : String → Except JsError (Option VideoInfo)
  addVideoToPlaylist : String → String → Except JsError Unit

def handleBlacklistedVideo (videoId : String) : AddResult :=
  { status := .skipped, videoId := videoId
    message := "🚫 Video " ++ videoId ++ " is blacklisted - skipping" }

def handleVideoNotFound (videoId : String) : AddResult :=
  { status := .skipped, videoId := videoId
    message := "⚠️  Video " ++ videoId ++ " not found - skipping" }

def handleDuplicateVideo (videoId : String) : AddResult :=
  { status := .skipped, videoId := videoId
    message := "⏭️  Already exists: " ++ videoId }

def handlePermissionError (videoId : String) : AddResult :=
  { status := .error, videoId := videoId
    message := "❌ Permission denied for " ++ videoId ++ " - check playlist permissions" }

def handleGenericError (videoId : String) (error : String) : AddResult :=
  { status := .error, videoId := videoId
    message := "❌ Error adding " ++ videoId ++ ": " ++ error }

def handleSuccessfulAdd (videoId : String) (title : String) : AddResult :=
  { status := .added, videoId := videoId
    message := "✅ Added: " ++ title, title := some title }

/-- The `catch` classifier of `processVideoAddition`: 409 or a message
containing `duplicate` is a skip, 403 a permission error, anything else a
generic error (`undefined` message prints as the string `undefined`). -/
def classifyAddError (videoId : String) (e : JsError) : AddResult :=
  if e.code = some 409 ||
      (match e.message with
       | some msg => strIncludes ("duplicate".data) msg.data
       | none => false) then
    handleDuplicateVideo videoId
  else if e.code = some 403 then handlePermissionError videoId
  else
    handleGenericError videoId (match e.message with
      | some msg => msg
      | none => "undefined")

/-- `videoInfo.snippet?.title || videoId` (empty titles are falsy). -/
def titleOrId (title : Option String) (videoId : String) : String :=
  match title with
  | some t => if t.data.isEmpty then videoId else t
  | none => videoId

/-- `processVideoAddition`: blacklist re-check, remote lookup, insert;
the whole lookup/insert is wrapped in `try/catch`, so every remote
failure becomes a classified `AddResult`. -/
def processVideoAddition (env : RemoteEnv) (playlistId : String) (videoId : String)
    (blacklistedVideoIds : List String) : AddResult :=
  if blacklistedVideoIds.contains videoId then handleBlacklistedVideo videoId
  else
    match env.getVideoInfo videoId with
    | .error e => classifyAddError videoId e
    | .ok none => handleVideoNotFound videoId
    | .ok (some videoInfo) =>
      match env.addVideoToPlaylist playlistId videoId with
      | .error e => classifyAddError videoId e
      | .ok _ => handleSuccessfulAdd videoId (titleOrId videoInfo.title videoId)

/-- `addVideosSequentially`: the index recursion `addNext` visits every
candidate in order and pushes exactly one result each; the inter-call
`sleep(RATE_LIMIT_MS)` does not affect the collected results. -/
def addVideosSequentially (env : RemoteEnv) (playlistId : String) :
    List String → List String → List AddResult
  | [], _ => []
  | videoId :: rest, blacklistedVideoIds =>
    processVideoAddition env playlistId videoId blacklistedVideoIds ::
      addVideosSequentially env playlistId rest blacklistedVideoIds

/-! ## Run statistics and exit status (`src/update.ts`) -/

/-- `Stats` of `src/update.ts`. -/
structure Stats where
  totalSignalVideos : Nat
  previouslyInPlaylist : Nat
  newVideosAdded : Nat
  skipped : Nat
  errors : Nat
  finalPlaylistSize : Nat
deriving DecidableEq, Repr

/-- `r.status === "added"`. -/
def statusIsAdded (r : AddResult) : Bool :=
  match r.status with
  | .added => true
  | _ => false

/-- `r.status === "skipped"`. -/
def statusIsSkipped (r : AddResult) : Bool :=
  match r.status with
  | .skipped => true
  | _ => false

/-- `r.status === "error"`. -/
def statusIsError (r : AddResult) : Bool :=
  match r.status with
  | .error => true
  | _ => false

/-- `calculateStats`. -/
def calculateStats (signalVideoIds : List String) (existingVideoIds : List String)
    (results : List AddResult) : Stats :=
  { totalSignalVideos := signalVideoIds.length
    previouslyInPlaylist := existingVideoIds.length
    newVideosAdded := (results.filter statusIsAdded).length
    skipped := (results.filter statusIsSkipped).length
    errors := (results.filter statusIsError).length
    finalPlaylistSize :=
      existingVideoIds.length + (results.filter statusIsAdded).length }

/-- `checkForErrors`: `process.exit(1)` exactly when `stats.errors > 0`;
`none` means the function returns and the process later exits 0. -/
def checkForErrors (stats : Stats) : Option Nat :=
  if stats.errors > 0 then some 1 else none

/-- The exit status of a completed run: the `checkForErrors` exit code,
or 0 when it returns normally. -/
def runExitCode (signalVideoIds : List String) (existingVideoIds : List String)
    (results : List AddResult) : Nat :=
  match checkForErrors (calculateStats signalVideoIds existingVideoIds results) with
  | some code => code
  | none => 0

/-! ## Blacklist loader -/

/-- The exclusion-list file format `{description, videoIds}`. -/
structure VideoBlacklist where
  description : String
  videoIds : List String
deriving DecidableEq, Repr

/-- `loadVideoBlacklist`: the file read and the `JSON.parse` + shape
cast are parameters; any failure of either is caught and yields the
empty set (`new Set()` modelled as `[]`). -/
def loadVideoBlacklist (file : Except String String)
    (parseJson : String → Except String VideoBlacklist) : List String :=
  match file with
  | .error _ => []
  | .ok text =>
    match parseJson text with
    | .error _ => []
    | .ok blacklist => blacklist.videoIds

/-! ## End-to-end scenario A input -/

/-- The scenario A chat-export line. -/
def lineA : String :=
  "25/11/2016, 01:29 - +43 677 61419397: check this https://youtu.be/abc12345678"

/-- The streaming extractor's per-line path applied to `lineA`: parse the
line, keep it only when it has YouTube links, and extract the link
records (`extractYouTubeLinksStream` of `src/whatsapp/extractor.ts`). -/
def scenarioRecords (tzOffsetMin : Int) : List YouTubeLinkWithMetadata :=
  match parseWhatsAppLine tzOffsetMin lineA 1 {} with
  | .ok (some m) =>
    if hasYouTubeLinks m.message then
      extractYouTubeLinksFromMessages [whatsAppMessageToMessageData m]
    else []
  | _ => []


/-! ## Theorems -/

/-- Any append of a cons is a nonempty list. -/
theorem append_cons_isEmpty_false (l : List Char) (c : Char) (r : List Char) :
    (l ++ c :: r).isEmpty = false := by
  cases l <;> rfl

/-- A filtered list is nonempty exactly when some member satisfies the
predicate. -/
theorem filter_length_pos_iff {α : Type} (p : α → Bool) (l : List α) :
    0 < (l.filter p).length ↔ ∃ a ∈ l, p a = true := by
  rw [List.length_pos_iff_exists_mem]
  constructor
  · rintro ⟨a, ha⟩
    exact ⟨a, (List.mem_filter.mp ha).1, (List.mem_filter.mp ha).2⟩
  · rintro ⟨a, ha, hp⟩
    exact ⟨a, List.mem_filter.mpr ⟨ha, hp⟩⟩

/-- C1 counterexample: `findNewVideos` does not defensively dedupe — with
`local=["a","a"]`, `remote={}`, `excluded={}` the identifier `"a"` appears
twice in the output, not at most once. -/
theorem findNewVideos_no_dedup_cex :
    findNewVideos ["a", "a"] [] [] = ["a", "a"] ∧
    (findNewVideos ["a", "a"] [] []).count "a" = 2 := by
  constructor <;> rfl

/-- C1 (amended): `findNewVideos` returns exactly the identifiers of
`localIdentifiers` present in neither the remote set nor the excluded set,
preserving relative order (a sublist) and multiplicity (repeats pass
through unchanged); in particular `local=["a","b","c"]`, `remote={"b"}`,
`excluded={"c"}` returns `["a"]`. -/
theorem findNewVideos_reconciles (localIds remote excluded : List String) :
    (findNewVideos localIds remote excluded).Sublist localIds ∧
    (∀ id, id ∈ findNewVideos localIds remote excluded ↔
      (id ∈ localIds ∧ remote.contains id = false ∧ excluded.contains id = false)) ∧
    findNewVideos ["a", "b", "c"] ["b"] ["c"] = ["a"] := by
  refine ⟨List.filter_sublist localIds, fun id => ?_, by rfl⟩
  simp [findNewVideos, List.mem_filter, and_assoc]

/-- C2: the two records of scenario B share identifier and sender but
differ in `timestampMs`; `deduplicateEntries` (and `deduplicateMetadata`)
key on `videoId:userId:datetime`, so both survive — the code does not
implement an identifier+sender (no time) policy, contradicting its own
doc comment ("keeps the entry with the earlier datetime"). -/
theorem deduplicateEntries_keeps_both_times :
    deduplicateEntries
        [{ videoId := "v", datetime := 100, userId := some "u" },
         { videoId := "v", datetime := 200, userId := some "u" }] =
      [{ videoId := "v", datetime := 100, userId := some "u" },
       { videoId := "v", datetime := 200, userId := some "u" }] ∧
    deduplicateMetadata
        [{ videoId := "v", datetime := 100, userId := some "u" },
         { videoId := "v", datetime := 200, userId := some "u" }] =
      [{ videoId := "v", datetime := 100, userId := some "u" },
       { videoId := "v", datetime := 200, userId := some "u" }] := by
  constructor <;> rfl

/-- C5: the Aggregator is a flat-map over messages, so running it over a
concatenation of two batches equals the concatenation of the per-batch
runs. -/
theorem extractYouTubeLinksFromMessages_append (batch1 batch2 : List MessageData) :
    extractYouTubeLinksFromMessages (batch1 ++ batch2) =
      extractYouTubeLinksFromMessages batch1 ++ extractYouTubeLinksFromMessages batch2 := by
  induction batch1 with
  | nil => rfl
  | cons m rest ih =>
    simp only [List.cons_append, extractYouTubeLinksFromMessages, List.append_eq, ih,
      List.append_assoc]

/-- C6: extractor pattern state never leaks between invocations — running
`extractVideoIdsFromMessage` or `hasYouTubeLinks` on a first text and then
on a second yields for the second exactly the result of a fresh call: the
reusable global-flag patterns' cursors (any incoming `lastIndex` state)
never influence a later scan, because each call resets them first. -/
theorem extractor_state_never_leaks (st1 st2 : Nat × Nat) (t1 t2 : String) :
    (extractVideoIdsFromMessageSt t2 (extractVideoIdsFromMessageSt t1 st1).2).1 =
      (extractVideoIdsFromMessageSt t2 st2).1 ∧
    (hasYouTubeLinksSt t2 (hasYouTubeLinksSt t1 st1).2).1 =
      (hasYouTubeLinksSt t2 st2).1 ∧
    (extractVideoIdsFromMessageSt t2 (hasYouTubeLinksSt t1 st1).2).1 =
      (extractVideoIdsFromMessageSt t2 st2).1 ∧
    (hasYouTubeLinksSt t2 (extractVideoIdsFromMessageSt t1 st1).2).1 =
      (hasYouTubeLinksSt t2 st2).1 ∧
    (extractVideoIdsFromMessageSt t2 st2).1 = extractVideoIdsFromMessage t2 ∧
    (hasYouTubeLinksSt t2 st2).1 = hasYouTubeLinks t2 := by
  refine ⟨rfl, ?_, rfl, ?_, rfl, ?_⟩ <;>
    cases h1 : execYoutuBe t2.data 0 <;>
      simp [hasYouTubeLinksSt, hasYouTubeLinks, h1] <;>
        cases h2 : execWatch t2.data 0 <;> simp [h2]

/-- C4: for a completed run the process exit status is nonzero exactly
when some Committer result has the error outcome; skipped results, however
many, never make it nonzero on their own. -/
theorem runExitCode_nonzero_iff_error (signalVideoIds existingVideoIds : List String)
    (results : List AddResult) :
    (runExitCode signalVideoIds existingVideoIds results ≠ 0 ↔
      ∃ r ∈ results, r.status = AddStatus.error) ∧
    ((∀ r ∈ results, r.status = AddStatus.skipped) →
      runExitCode signalVideoIds existingVideoIds results = 0) := by
  have hstat : ∀ r : AddResult, statusIsError r = true ↔ r.status = AddStatus.error := by
    intro r
    cases h : r.status <;> simp [statusIsError, h]
  have hiff : 0 < (results.filter statusIsError).length ↔
      ∃ r ∈ results, r.status = AddStatus.error := by
    rw [filter_length_pos_iff]
    constructor
    · rintro ⟨a, ha, hp⟩
      exact ⟨a, ha, (hstat a).mp hp⟩
    · rintro ⟨a, ha, hp⟩
      exact ⟨a, ha, (hstat a).mpr hp⟩
  constructor
  · by_cases h : 0 < (results.filter statusIsError).length
    · simp only [runExitCode, checkForErrors, calculateStats, h, if_pos h]
      simpa using hiff.mp h
    · simp only [runExitCode, checkForErrors, calculateStats, if_neg h]
      constructor
      · intro hx
        exact absurd rfl hx
      · intro hx
        exact absurd (hiff.mpr hx) h
  · intro hall
    have hnone : ¬ 0 < (results.filter statusIsError).length := by
      intro hpos
      obtain ⟨r, hr, hs⟩ := hiff.mp hpos
      rw [hall r hr] at hs
      cases hs
    simp only [runExitCode, checkForErrors, calculateStats, if_neg hnone]

/-- C10: if the exclusion-list file is missing/unreadable or its contents
unparseable, `loadVideoBlacklist` returns the empty set (no error is
raised: the value is total), and reconciliation then applies no exclusion
filtering at all — `findNewVideos` degenerates to the remote-set filter. -/
theorem loadVideoBlacklist_failure_empty (file : Except String String)
    (parseJson : String → Except String VideoBlacklist)
    (h : file.isOk = false ∨ ∃ text, file = .ok text ∧ (parseJson text).isOk = false) :
    loadVideoBlacklist file parseJson = [] ∧
    ∀ ids existing, findNewVideos ids existing (loadVideoBlacklist file parseJson) =
      ids.filter (fun id => !existing.contains id) := by
  have hempty : loadVideoBlacklist file parseJson = [] := by
    rcases h with hbad | ⟨t, rfl, hp⟩
    · cases file with
      | error e => rfl
      | ok text => simp [Except.isOk, Except.toBool] at hbad
    · cases hparse : parseJson t with
      | error e => simp [loadVideoBlacklist, hparse]
      | ok bl => rw [hparse] at hp; simp [Except.isOk, Except.toBool] at hp
  refine ⟨hempty, fun ids existing => ?_⟩
  rw [hempty]
  simp [findNewVideos]

/-- C10 witness: a missing file yields the empty blacklist and unfiltered
reconciliation. -/
theorem loadVideoBlacklist_failure_empty_witness :
    loadVideoBlacklist (Except.error "ENOENT")
        (fun _ => Except.ok { description := "", videoIds := ["z"] }) = [] ∧
    findNewVideos ["a"] []
        (loadVideoBlacklist (Except.error "ENOENT")
          (fun _ => Except.ok { description := "", videoIds := ["z"] })) = ["a"] := by
  have h := loadVideoBlacklist_failure_empty (Except.error "ENOENT")
    (fun _ => Except.ok { description := "", videoIds := ["z"] }) (Or.inl rfl)
  exact ⟨h.1, by rw [h.1]; rfl⟩

/-- The sequential committer denotes a map of the per-item state machine
over the candidates. -/
theorem addVideosSequentially_eq_map (env : RemoteEnv) (playlistId : String)
    (blacklistedVideoIds : List String) (videoIds : List String) :
    addVideosSequentially env playlistId videoIds blacklistedVideoIds =
      videoIds.map (fun v => processVideoAddition env playlistId v blacklistedVideoIds) := by
  induction videoIds with
  | nil => rfl
  | cons v rest ih => simp [addVideosSequentially, ih]

/-- Every branch of the per-item state machine reports the candidate it
processed. -/
theorem processVideoAddition_videoId (env : RemoteEnv) (playlistId videoId : String)
    (blacklistedVideoIds : List String) :
    (processVideoAddition env playlistId videoId blacklistedVideoIds).videoId = videoId := by
  unfold processVideoAddition classifyAddError
  split
  · rfl
  · split
    · split
      · rfl
      · split
        · rfl
        · rfl
    · rfl
    · split
      · split
        · rfl
        · split
          · rfl
          · rfl
      · rfl

/-- C3: the Committer produces exactly one classified result per
candidate, in input order — position `i` of the output is the state
machine run on candidate `i`, for every remote behaviour `env`, including
ones whose lookup or insert throws: the failure is caught and converted
into that candidate's result record and the remaining candidates are
still processed (their results are unchanged by the failure). -/
theorem addVideosSequentially_one_result_each (env : RemoteEnv) (playlistId : String)
    (blacklistedVideoIds : List String) (videoIds : List String) :
    (addVideosSequentially env playlistId videoIds blacklistedVideoIds).length =
      videoIds.length ∧
    (∀ i : Nat, (addVideosSequentially env playlistId videoIds blacklistedVideoIds)[i]? =
      (videoIds[i]?).map (fun v => processVideoAddition env playlistId v blacklistedVideoIds)) ∧
    (∀ v, (processVideoAddition env playlistId v blacklistedVideoIds).videoId = v) := by
  rw [addVideosSequentially_eq_map]
  exact ⟨List.length_map _ _,
    fun i => List.getElem?_map _ _ _,
    fun v => processVideoAddition_videoId env playlistId v blacklistedVideoIds⟩

/-- A successful `youtu.be` pattern attempt captures a nonempty run of
`[\w-]` characters. -/
theorem youtuBeExec_capture :
    ∀ (fuel pos : Nat) (suffix cap : List Char) (e : Nat),
      youtuBeExec fuel pos suffix = some (cap, e) →
      cap ≠ [] ∧ cap.all isWordDash = true := by
  intro fuel
  induction fuel with
  | zero => intro pos suffix cap e h; simp [youtuBeExec] at h
  | succ n ih =>
    intro pos suffix cap e h
    cases suffix with
    | nil => simp [youtuBeExec] at h
    | cons c cs =>
      simp only [youtuBeExec] at h
      split at h
      · split at h
        · exact ih _ _ _ _ h
        · rename_i hrun
          rw [Option.some.injEq, Prod.mk.injEq] at h
          obtain ⟨rfl, rfl⟩ := h
          refine ⟨fun hnil => hrun (by rw [hnil]; rfl), List.all_takeWhile⟩
      · exact ih _ _ _ _ h

/-- Every capture collected by the exec loop satisfies any property all
successful execs guarantee. -/
theorem execLoop_captures {P : List Char → Prop}
    (exec : List Char → Nat → Option (List Char × Nat))
    (hexec : ∀ s li cap e, exec s li = some (cap, e) → P cap) :
    ∀ (fuel : Nat) (s : List Char) (li : Nat) (cap : List Char),
      cap ∈ (execLoop exec fuel s li).1 → P cap := by
  intro fuel
  induction fuel with
  | zero => intro s li cap h; simp [execLoop] at h
  | succ n ih =>
    intro s li cap h
    simp only [execLoop] at h
    split at h
    · simp at h
    · rename_i c li' heq
      rcases List.mem_cons.mp h with rfl | hmem
      · exact hexec _ _ _ _ heq
      · exact ih _ _ _ hmem

/-- C7 counterexample: the `youtu.be` capture group is `([\w-]+)` — one or
more characters, not eleven or more: a three-character path segment yields
the identifier `"abc"`, which has fewer than 11 characters. -/
theorem youtuBe_eleven_char_cex :
    extractVideoIdsFromMessage "https://youtu.be/abc" = ["abc"] ∧
    ("abc" : String).length = 3 := by
  constructor <;> rfl

/-- C7 (amended): every identifier the Extractor captures from an
`https://youtu.be/<id>` link is a nonempty (one-or-more, rather than the
claimed eleven-or-more) run of word-characters/hyphens after the path
separator, and a `youtu.be/` occurrence followed by no such character
yields no identifier from that pattern. -/
theorem youtuBe_capture_shape :
    (∀ (s cap : List Char), cap ∈ youtuBeIds s →
      cap ≠ [] ∧ cap.all isWordDash = true) ∧
    youtuBeIds ("https://youtu.be/".data) = [] := by
  constructor
  · intro s cap hmem
    exact execLoop_captures (P := fun cap => cap ≠ [] ∧ cap.all isWordDash = true)
      execYoutuBe (fun s' li cap' e h => youtuBeExec_capture _ _ _ _ _ h)
      (s.length + 1) s 0 cap hmem
  · rfl

/-- C7 witness: the capture `"ab"` from `https://youtu.be/ab` is a
nonempty word-character/hyphen run. -/
theorem youtuBe_capture_shape_witness :
    ("ab".data ≠ [] ∧ ("ab".data).all isWordDash = true) :=
  youtuBe_capture_shape.1 ("https://youtu.be/ab".data) ("ab".data) (by decide)

/-- A successful header match defines all four capture groups, the first
three nonempty: the regex puts no group under `?` or an alternation. -/
theorem matchHeader_groups (line : List Char) :
    matchHeader line = none ∨
    ∃ a b c d, matchHeader line = some (some a, some b, some c, some d) ∧
      a.data.isEmpty = false ∧ b.data.isEmpty = false ∧ c.data.isEmpty = false := by
  simp only [matchHeader]
  repeat' split
  all_goals try exact Or.inl rfl
  all_goals
    refine Or.inr ⟨_, _, _, _, rfl, append_cons_isEmpty_false _ _ _,
      append_cons_isEmpty_false _ _ _, ?_⟩
  all_goals simp_all

/-- C9: for every input line, line number, timezone and options,
`parseWhatsAppLine` returns a parsed message or null and never throws —
the `Invalid message format at line ...` branch is unreachable because a
successful header match defines all four capture groups. -/
theorem parseWhatsAppLine_never_throws (tzOffsetMin : Int) (line : String)
    (lineNumber : Nat) (options : WhatsAppParseOptions) :
    (parseWhatsAppLine tzOffsetMin line lineNumber options).isOk = true := by
  unfold parseWhatsAppLine
  split
  · rfl
  · rcases matchHeader_groups line.data with hnone | ⟨a, b, c, d, hsome, ha, hb, hc⟩
    · rw [hnone]; rfl
    · rw [hsome]
      simp only [jsFalsy, ha, hb, hc, Option.isNone_some, Bool.or_self, Bool.or_false,
        Bool.false_or, if_false, Bool.false_eq_true, ite_false]
      split <;> rfl

/-- C8 counterexample: the record parsed and extracted from the scenario A
line carries senderId `"+4367761419397"` — the space-stripped form of
`+43 677 61419397` — which is not the claimed `"+436776141397"`. -/
theorem scenarioA_senderId_cex :
    (scenarioRecords 0).map (fun r => r.userId) = [some "+4367761419397"] ∧
    ("+4367761419397" : String) ≠ "+436776141397" := by
  constructor
  · rfl
  · decide

/-- C8 (amended): for every local timezone offset, parsing the scenario A
line and extracting links yields exactly one LinkRecord, with identifier
`"abc12345678"`, senderId `"+4367761419397"` (internal spaces of
`+43 677 61419397` stripped), and timestampMs the local-time epoch
milliseconds of civil 2016-11-25 01:29 (day before month). -/
theorem scenarioA_one_record (tzOffsetMin : Int) :
    scenarioRecords tzOffsetMin =
      [{ videoId := "abc12345678",
         datetime := daysFromCivil 2016 11 25 * 86400000
           + (1 * 60 + 29) * 60000 - tzOffsetMin * 60000,
         userId := some "+4367761419397" }] := by
  rfl
